import Mathlib

/-!
# Verification of the LunaHR connection supervisor and telemetry pipeline

A shallow embedding of `src/lunahr.py`.  Times are rationals (seconds, as
returned by `time.time()`); machine state is explicit record-passing.  Each
definition below is translated from the named Python function; Python's
truthiness test on an optional timestamp (`if not self.x`) is modelled by
`pyTruthy`, which is false exactly for `None` and for the timestamp `0.0`.
-/

/-- Python truthiness of an optional float timestamp: `None` and `0.0` are falsy. -/
def pyTruthy : Option ℚ → Bool
  | none => false
  | some t => !(t == 0)

/-! ## Constants (module-level constants and `MainWindow.__init__` fields) -/

/-- `RECONNECT_COOLDOWN_SECONDS = 15` -/
def RECONNECT_COOLDOWN_SECONDS : ℚ := 15

/-- `self.reconnect_timeout = 30` (watchdog stall threshold, seconds) -/
def reconnect_timeout : ℚ := 30

/-- `self.reconnect_delay_seconds = 5` -/
def reconnect_delay_seconds : ℚ := 5

/-- `self.reconnect_max_seconds = 180` (reconnect-cycle wall-clock budget) -/
def reconnect_max_seconds : ℚ := 180

/-- `self.snap_back_seconds = 30` -/
def snap_back_seconds : ℚ := 30

/-! ## Downstream publisher: digit decomposition (`MainWindow.send_heart_rate_osc`) -/

/-- `ones_hr = heart_rate % 10` -/
def ones_hr (heart_rate : ℕ) : ℕ := heart_rate % 10

/-- `tens_hr = (heart_rate // 10) % 10` -/
def tens_hr (heart_rate : ℕ) : ℕ := heart_rate / 10 % 10

/-- `hundreds_hr = (heart_rate // 100) % 10` -/
def hundreds_hr (heart_rate : ℕ) : ℕ := heart_rate / 100 % 10

/-- The value carried by the p-th `send_message` call of the inner loop body, in
source order: parameter 0 is `/avatar/parameters/hr/ones_hr`, 1 is `tens_hr`,
2 is `hundreds_hr`, 3 is the raw `/avatar/parameters/hr/heart_rate`. -/
def oscParamValue (heart_rate : ℕ) : ℕ → ℕ
  | 0 => ones_hr heart_rate
  | 1 => tens_hr heart_rate
  | 2 => hundreds_hr heart_rate
  | _ => heart_rate

/-- The sends the `for client in self.osc_clients` loop would issue if none
raised: pair `(c, p)` is the p-th parameter sent to the c-th configured sink,
enumerated in source order (all four parameters to sink 0, then sink 1, ...). -/
def oscSendOrder (nClients : ℕ) : List (ℕ × ℕ) :=
  (List.range nClients).flatMap fun c => (List.range 4).map fun p => (c, p)

/-- Executes a list of send attempts in order where `fails c p` says whether the
datagram send to sink `c` of parameter `p` raises.  The `try` in
`send_heart_rate_osc` encloses the whole loop, so the first raising send is the
last one attempted: everything after it is skipped and the exception is caught
(and logged) at function level. -/
def takeThroughFirstFailure (fails : ℕ → ℕ → Bool) : List (ℕ × ℕ) → List (ℕ × ℕ)
  | [] => []
  | cp :: rest =>
    if fails cp.1 cp.2 then [cp] else cp :: takeThroughFirstFailure fails rest

/-! ## Supervisor state (`MainWindow` fields used by the watchdog/reconnect logic) -/

/-- The `MainWindow` fields read or written by the supervisor, publisher and
live-view logic.  `workerLive` models `self.worker` being a live worker thread
(`None`-ness); `pendingRestartAt` models the absolute fire time of the
`QTimer.singleShot(..., self._restart_connection)` most recently scheduled
(the source never has two outstanding on the reconnect path because
`reconnect` returns early while `_reconnect_scheduled` is set). -/
structure MW where
  reconnecting : Bool
  reconnectScheduled : Bool
  reconnectStartedAt : Option ℚ
  lastHrTime : Option ℚ
  lastHrValue : Option ℕ
  lastReconnectAttemptAt : Option ℚ
  connectEnabled : Bool
  workerLive : Bool
  pendingRestartAt : Option ℚ
  followLive : Bool
  lastUserInteraction : Option ℚ
  programmaticRangeChange : Bool
  deriving DecidableEq

/-- `MainWindow.stop_worker`: stops, quits and joins the worker thread and sets
`self.worker = None`. -/
def MW.stop_worker (s : MW) : MW := { s with workerLive := false }

/-- `MainWindow.start_worker`: calls `stop_worker` then constructs and starts a
fresh transport worker. -/
def MW.start_worker (s : MW) : MW := { s.stop_worker with workerLive := true }

/-- `MainWindow._enter_reconnect_cycle`: records the cycle start timestamp only
if none is recorded yet (`if not self.reconnect_started_at`). -/
def MW.enter_reconnect_cycle (now : ℚ) (s : MW) : MW :=
  if pyTruthy s.reconnectStartedAt then s else { s with reconnectStartedAt := some now }

/-- `MainWindow._reconnect_time_exceeded`: false when no cycle is open,
otherwise `(now - started_at) >= reconnect_max_seconds`. -/
def MW.reconnect_time_exceeded (now : ℚ) (s : MW) : Bool :=
  match s.reconnectStartedAt with
  | none => false
  | some t => if t = 0 then false else decide (reconnect_max_seconds ≤ now - t)

/-- `MainWindow._exit_reconnect_cycle_to_idle`: clears all reconnect
bookkeeping and the last-sample timestamp, re-enables the connect button, and
stops the worker.  (It does not cancel an already-scheduled single-shot
restart timer.) -/
def MW.exit_reconnect_cycle_to_idle (s : MW) : MW :=
  ({ s with reconnecting := false, reconnectScheduled := false,
            reconnectStartedAt := none, lastHrTime := none,
            lastReconnectAttemptAt := none,
            connectEnabled := true } : MW).stop_worker

/-- `MainWindow._can_attempt_reconnect_now`: true when no attempt is recorded
(`is None`) or the cooldown has elapsed since the recorded attempt. -/
def MW.can_attempt_reconnect_now (now : ℚ) (s : MW) : Bool :=
  match s.lastReconnectAttemptAt with
  | none => true
  | some t => decide (RECONNECT_COOLDOWN_SECONDS ≤ now - t)

/-- `MainWindow._remaining_reconnect_cooldown`. -/
def MW.remaining_reconnect_cooldown (now : ℚ) (s : MW) : ℚ :=
  match s.lastReconnectAttemptAt with
  | none => 0
  | some t =>
    let rem := RECONNECT_COOLDOWN_SECONDS - (now - t)
    if 0 < rem then rem else 0

/-- The delay of the deferred-path timer, `int(max(rem, 0.5) * 1000)`
milliseconds, expressed in seconds.  The argument of `int` is positive, so
Python's truncation towards zero is the floor. -/
def singleShotDelay (rem : ℚ) : ℚ := (⌊max rem (1/2) * 1000⌋ : ℚ) / 1000

/-- `MainWindow.reconnect`: coalesces with an already-scheduled restart, gives
up if the cycle budget is exceeded, defers with a timer while the cooldown is
active, and otherwise records the attempt time, stops the worker and schedules
the restart `reconnect_delay_seconds` later. -/
def MW.reconnect (now : ℚ) (s : MW) : MW :=
  if s.reconnectScheduled then s
  else if s.reconnecting && s.reconnect_time_exceeded now then
    s.exit_reconnect_cycle_to_idle
  else if !(s.can_attempt_reconnect_now now) then
    { s with reconnectScheduled := true,
             pendingRestartAt :=
               some (now + singleShotDelay (s.remaining_reconnect_cooldown now)) }
  else
    let s' : MW := { s with lastReconnectAttemptAt := some now, reconnectScheduled := true }
    { s'.stop_worker with pendingRestartAt := some (now + reconnect_delay_seconds) }

/-- `MainWindow._restart_connection` (the single-shot timer body, run at its
scheduled fire time `now`): clears the scheduled flag, gives up if the budget
is exceeded while reconnecting, otherwise starts a fresh worker. -/
def MW.restart_connection (now : ℚ) (s : MW) : MW :=
  let s' : MW := { s with reconnectScheduled := false, pendingRestartAt := none }
  if s'.reconnecting && s'.reconnect_time_exceeded now then
    s'.exit_reconnect_cycle_to_idle
  else
    s'.start_worker

/-- `MainWindow.check_heartbeat_timeout` (the 5 s watchdog tick): while
reconnecting or scheduled it only enforces the cycle budget; otherwise, with a
live worker and a recorded last sample, a gap strictly greater than
`reconnect_timeout` starts a reconnect cycle, clears the last-sample
timestamp, and calls `reconnect`. -/
def MW.check_heartbeat_timeout (now : ℚ) (s : MW) : MW :=
  if s.reconnecting || s.reconnectScheduled then
    if s.reconnecting && s.reconnect_time_exceeded now then
      s.exit_reconnect_cycle_to_idle
    else s
  else if !s.workerLive || !pyTruthy s.lastHrTime then s
  else
    let elapsed := now - (s.lastHrTime.getD 0)
    if reconnect_timeout < elapsed then
      let s₁ : MW := { s with reconnecting := true }
      let s₂ := s₁.enter_reconnect_cycle now
      let s₃ : MW := { s₂ with lastHrTime := none }
      if s₃.reconnect_time_exceeded now then s₃.exit_reconnect_cycle_to_idle
      else s₃.reconnect now
    else s

/-- `MainWindow.on_hr_update` (state effect only; appending to the plot data
and publishing over OSC do not touch these fields): a sample while
reconnecting clears all reconnect bookkeeping, and the sample timestamp and
value are recorded. -/
def MW.on_hr_update (now : ℚ) (bpm : ℕ) (s : MW) : MW :=
  let s' : MW :=
    if s.reconnecting then
      { s with reconnecting := false, reconnectScheduled := false,
               reconnectStartedAt := none, lastReconnectAttemptAt := none }
    else s
  { s' with lastHrTime := some now, lastHrValue := some bpm }

/-- `MainWindow.send_heart_rate_osc`, with an explicit fault model: `fails c p`
says whether the `send_message` for parameter `p` to sink `c` raises.  A raise
propagates out of the `for` loop to the function-level `except`, which logs and
swallows it.  Returns the unchanged window state (the body never writes any
`MainWindow` field) together with the list of send calls actually attempted. -/
def MW.send_heart_rate_osc (s : MW) (nClients : ℕ) (fails : ℕ → ℕ → Bool)
    (_heart_rate : ℕ) : MW × List (ℕ × ℕ) :=
  (s, takeThroughFirstFailure fails (oscSendOrder nClients))

/-! ## Live-view controller -/

/-- `MainWindow.on_user_interaction`: ignored during a programmatic range
change; otherwise leaves live-follow off and timestamps the interaction. -/
def MW.on_user_interaction (now : ℚ) (s : MW) : MW :=
  if s.programmaticRangeChange then s
  else
    let s' : MW := if s.followLive then { s with followLive := false } else s
    { s' with lastUserInteraction := some now }

/-- `MainWindow.snap_to_live`: re-enables live-follow and clears the
interaction timestamp.  (`update_live_view` then only pushes a plot range,
restoring the re-entrancy flag to false before returning.) -/
def MW.snap_to_live (s : MW) : MW :=
  { s with followLive := true, lastUserInteraction := none }

/-- `MainWindow.check_snapback` (the 1 s tick): in explore mode with a recorded
interaction, snaps back to live once `snap_back_seconds` have elapsed. -/
def MW.check_snapback (now : ℚ) (s : MW) : MW :=
  if s.followLive then s
  else if !pyTruthy s.lastUserInteraction then s
  else if snap_back_seconds ≤ now - (s.lastUserInteraction.getD 0) then
    s.snap_to_live
  else s

/-! ## Transport workers -/

/-- The `PolarWorker` fields relevant to stopping: the cooperative `running`
flag set in `__init__` and cleared by `stop`. -/
structure PolarWorker where
  running : Bool
  deriving DecidableEq

/-- `PolarWorker.__init__` (state-relevant part). -/
def PolarWorker.init : PolarWorker := { running := true }

/-- `PolarWorker.stop`: `self.running = False`. -/
def PolarWorker.stop (w : PolarWorker) : PolarWorker := { w with running := false }

/-- Python's `str.strip()` with no argument: drop leading and trailing
whitespace. -/
def pyStrip (s : String) : String :=
  ⟨((s.data.dropWhile Char.isWhitespace).reverse.dropWhile Char.isWhitespace).reverse⟩

/-- The `PulsoidWorker` fields relevant to the claims: the token (stripped in
`__init__`) and the cooperative `running` flag. -/
structure PulsoidWorker where
  token : String
  running : Bool
  deriving DecidableEq

/-- `PulsoidWorker.__init__(token)`: `self.token = token.strip()`,
`self.running = True`. -/
def PulsoidWorker.init (token : String) : PulsoidWorker :=
  { token := pyStrip token, running := true }

/-- `PulsoidWorker.stop`: `self.running = False`. -/
def PulsoidWorker.stop (w : PulsoidWorker) : PulsoidWorker := { w with running := false }

/-- `PULSOID_WS_URL.format(token=...)`: the template
`"wss://dev.pulsoid.net/api/v1/data/real_time?access_token=" + token` (the
placeholder sits at the end of the template). -/
def pulsoidUrl (token : String) : String :=
  "wss://dev.pulsoid.net/api/v1/data/real_time?access_token=" ++ token

/-- How `PulsoidWorker.run_ws` begins: either it emits the token-missing status
and returns without ever touching the network, or it proceeds to
`websockets.connect(url, ...)`. -/
inductive RunWsOutcome where
  | tokenMissing (status : String)
  | connectAttempt (url : String)
  deriving DecidableEq

/-- Number of socket connection attempts each outcome initiates. -/
def RunWsOutcome.connectionAttempts : RunWsOutcome → ℕ
  | .tokenMissing _ => 0
  | .connectAttempt _ => 1

/-- The guard at the top of `PulsoidWorker.run_ws`: `if not self.token:` emit
the status, log, and `return`; otherwise format the URL and connect. -/
def PulsoidWorker.run_ws_entry (w : PulsoidWorker) : RunWsOutcome :=
  if w.token = "" then
    .tokenMissing "Pulsoid token not set (open Settings)."
  else
    .connectAttempt (pulsoidUrl w.token)

/-! ## Receive-loop timing

`PolarWorker.run_ble` waits in `while self.running: await asyncio.sleep(1)`:
the flag is polled at loop entry and then once per second.
`PulsoidWorker.run_ws` waits in `while self.running: msg = await ws.recv()`:
`ws.recv()` carries no timeout, so the flag is polled at loop entry and then
only after each inbound message has been received. -/

/-- The n-th time `run_ble`'s wait loop reads `self.running`. -/
def polarPollTime (loopStart : ℚ) (n : ℕ) : ℚ := loopStart + n

/-- The times `run_ws`'s receive loop reads `self.running`: at entry and after
each inbound message (given the sorted list of message arrival times). -/
def pulsoidPollTimes (loopStart : ℚ) (arrivals : List ℚ) : List ℚ :=
  loopStart :: arrivals

/-- The loop observes a stop issued at `stopTime` within one polling interval
when some poll falls in `[stopTime, stopTime + 1]`. -/
def observesStopWithinOneInterval (polls : List ℚ) (stopTime : ℚ) : Prop :=
  ∃ p ∈ polls, stopTime ≤ p ∧ p ≤ stopTime + 1

/-- The message arrivals `run_ws` receives and emits as samples, given the time
of the poll preceding the next `ws.recv()` and the stop time: the loop exits at
the first poll at or after `stopTime`, but a message whose `recv` began before
that is still decoded and emitted (the flag is only re-read afterwards). -/
def pulsoidEmitted (prevPoll stopTime : ℚ) : List ℚ → List ℚ
  | [] => []
  | a :: rest =>
    if stopTime ≤ prevPoll then [] else a :: pulsoidEmitted a stopTime rest

/-! ## Shared concrete states and helper lemmas -/

/-- The supervisor-relevant field values set by `MainWindow.__init__`. -/
def mwBase : MW :=
  { reconnecting := false, reconnectScheduled := false, reconnectStartedAt := none,
    lastHrTime := none, lastHrValue := none, lastReconnectAttemptAt := none,
    connectEnabled := true, workerLive := false, pendingRestartAt := none,
    followLive := true, lastUserInteraction := none, programmaticRangeChange := false }

lemma pyTruthy_some_of_ne {t : ℚ} (h : t ≠ 0) : pyTruthy (some t) = true := by
  simp [pyTruthy, h]

/-- A cycle whose recorded start is `now` itself is never already exceeded. -/
lemma reconnect_time_exceeded_at_start (now : ℚ) (s : MW)
    (h : s.reconnectStartedAt = some now) : s.reconnect_time_exceeded now = false := by
  unfold MW.reconnect_time_exceeded
  rw [h]
  by_cases h0 : now = 0
  · simp [h0]
  · simp only [h0, if_false, decide_eq_false_iff_not, not_le, sub_self]
    norm_num [reconnect_max_seconds]

lemma takeThroughFirstFailure_of_ok (fails : ℕ → ℕ → Bool) :
    ∀ l : List (ℕ × ℕ), (∀ a ∈ l, fails a.1 a.2 = false) →
      takeThroughFirstFailure fails l = l := by
  intro l
  induction l with
  | nil => intro _; rfl
  | cons a l ih =>
    intro h
    unfold takeThroughFirstFailure
    rw [h a (by simp)]
    simp only [Bool.false_eq_true, if_false, List.cons.injEq, true_and]
    exact ih fun b hb => h b (by simp [hb])

/-- The attempted sends are the planned sends truncated just past the first
failing one (when no send fails, `findIdx` is the list length and `take`
returns the whole plan). -/
lemma takeThroughFirstFailure_eq_take (fails : ℕ → ℕ → Bool) :
    ∀ l : List (ℕ × ℕ),
      takeThroughFirstFailure fails l =
        l.take (l.findIdx (fun a => fails a.1 a.2) + 1) := by
  intro l
  induction l with
  | nil => rfl
  | cons a l ih =>
    unfold takeThroughFirstFailure
    rw [List.findIdx_cons]
    by_cases h : fails a.1 a.2
    · simp [h]
    · simp [h, ih]

/-! ## Claim theorems -/

/-- Claim C7: for every bpm in 0–999, the published digit decomposition is
exact: `bpm = hundreds*100 + tens*10 + ones` with `ones = bpm % 10`,
`tens = (bpm / 10) % 10`, `hundreds = (bpm / 100) % 10` under integer
division. -/
theorem publish_digit_decomposition_0_999 (bpm : ℕ) (h : bpm ≤ 999) :
    hundreds_hr bpm * 100 + tens_hr bpm * 10 + ones_hr bpm = bpm ∧
    ones_hr bpm = bpm % 10 ∧ tens_hr bpm = bpm / 10 % 10 ∧
    hundreds_hr bpm = bpm / 100 % 10 := by
  refine ⟨?_, rfl, rfl, rfl⟩
  unfold ones_hr tens_hr hundreds_hr
  omega

theorem publish_digit_decomposition_0_999_witness :
    187 ≤ 999 ∧
    hundreds_hr 187 * 100 + tens_hr 187 * 10 + ones_hr 187 = 187 ∧
    ones_hr 187 = 7 ∧ tens_hr 187 = 8 ∧ hundreds_hr 187 = 1 :=
  ⟨by decide, (publish_digit_decomposition_0_999 187 (by decide)).1,
   by decide, by decide, by decide⟩

/-- Claim C10: for every non-negative bpm the published digits reconstruct
`bpm mod 1000`, the fourth OSC parameter carries the raw undecomposed value,
and for bpm ≥ 1000 the two disagree. -/
theorem publish_digits_raw_mod_1000 (bpm : ℕ) :
    ones_hr bpm + 10 * tens_hr bpm + 100 * hundreds_hr bpm = bpm % 1000 ∧
    oscParamValue bpm 3 = bpm ∧
    (1000 ≤ bpm → ones_hr bpm + 10 * tens_hr bpm + 100 * hundreds_hr bpm ≠ bpm) := by
  refine ⟨?_, rfl, ?_⟩
  · unfold ones_hr tens_hr hundreds_hr
    omega
  · intro h
    unfold ones_hr tens_hr hundreds_hr
    omega

theorem publish_digits_raw_mod_1000_witness :
    ones_hr 1234 + 10 * tens_hr 1234 + 100 * hundreds_hr 1234 = 234 ∧
    oscParamValue 1234 3 = 1234 ∧
    ones_hr 1234 + 10 * tens_hr 1234 + 100 * hundreds_hr 1234 ≠ 1234 := by
  have h := publish_digits_raw_mod_1000 1234
  exact ⟨h.1.trans (by decide), h.2.1, h.2.2 (by decide)⟩

/-- Claim C1 counterexample: with two configured sinks and a transmission
fault on the very first datagram (parameter 0 to sink 0), the `try` that
encloses the whole fan-out loop aborts it, so the remaining sink (index 1)
receives no send attempt for any of the four parameters — contradicting the
claim that a fault at one sink does not prevent the attempts to the remaining
sinks. -/
theorem osc_fanout_fault_cex :
    (mwBase.send_heart_rate_osc 2 (fun c p => c == 0 && p == 0) 80).2 = [(0, 0)] ∧
    (1, 0) ∉ (mwBase.send_heart_rate_osc 2 (fun c p => c == 0 && p == 0) 80).2 ∧
    (mwBase.send_heart_rate_osc 2 (fun c p => c == 0 && p == 0) 80).1 = mwBase :=
  ⟨by decide, by decide, rfl⟩

/-- Claim C1, amended: a transmission fault is caught at function level and
never changes Supervisor state, and when no send faults every configured sink
receives all four parameters in list order; but a fault aborts the entire
fan-out of that sample — the attempted sends are exactly the planned sends
truncated just past the first faulting one, so the faulting sink's remaining
parameters and all subsequent sinks get no attempts. -/
theorem osc_fanout_amended :
    (∀ (s : MW) (n : ℕ) (fails : ℕ → ℕ → Bool) (hr : ℕ),
       (s.send_heart_rate_osc n fails hr).1 = s)
    ∧ (∀ (s : MW) (n : ℕ) (fails : ℕ → ℕ → Bool) (hr : ℕ),
         (∀ a ∈ oscSendOrder n, fails a.1 a.2 = false) →
         (s.send_heart_rate_osc n fails hr).2 = oscSendOrder n)
    ∧ (∀ (s : MW) (n : ℕ) (fails : ℕ → ℕ → Bool) (hr : ℕ),
         (s.send_heart_rate_osc n fails hr).2 =
           (oscSendOrder n).take ((oscSendOrder n).findIdx (fun a => fails a.1 a.2) + 1)) :=
  ⟨fun _ _ _ _ => rfl,
   fun _ n fails _ h => takeThroughFirstFailure_of_ok fails (oscSendOrder n) h,
   fun _ n fails _ => takeThroughFirstFailure_eq_take fails (oscSendOrder n)⟩

theorem osc_fanout_amended_witness :
    (mwBase.send_heart_rate_osc 2 (fun _ _ => false) 80).1 = mwBase ∧
    (mwBase.send_heart_rate_osc 2 (fun _ _ => false) 80).2 = oscSendOrder 2 :=
  ⟨osc_fanout_amended.1 mwBase 2 (fun _ _ => false) 80,
   osc_fanout_amended.2.1 mwBase 2 (fun _ _ => false) 80 (by decide)⟩

/-- Claim C8: a user interaction while live-follow is on (and not caused by a
programmatic range push) turns live-follow off and records the interaction
time; the 1 s snap-back tick restores live-follow once 30 s pass with no
further interaction; and an explicit go-live request restores it immediately,
clearing the interaction timestamp. -/
theorem live_view_follow_control :
    (∀ (s : MW) (now : ℚ), s.programmaticRangeChange = false → s.followLive = true →
       (s.on_user_interaction now).followLive = false ∧
       (s.on_user_interaction now).lastUserInteraction = some now)
    ∧ (∀ (s : MW) (now t : ℚ), s.followLive = false → s.lastUserInteraction = some t →
         t ≠ 0 → snap_back_seconds ≤ now - t →
         (s.check_snapback now).followLive = true ∧
         (s.check_snapback now).lastUserInteraction = none)
    ∧ (∀ s : MW, s.snap_to_live.followLive = true ∧
         s.snap_to_live.lastUserInteraction = none) := by
  refine ⟨?_, ?_, ?_⟩
  · intro s now hprog hfollow
    simp [MW.on_user_interaction, hprog, hfollow]
  · intro s now t hfollow hlast ht helapsed
    simp [MW.check_snapback, hfollow, hlast, pyTruthy_some_of_ne ht, helapsed,
      MW.snap_to_live]
  · intro s
    simp [MW.snap_to_live]

/-- The base state in explore mode with an interaction recorded at time 100,
used to exercise the snap-back check. -/
def mwExplore100 : MW :=
  { mwBase with followLive := false, lastUserInteraction := some 100 }

theorem live_view_follow_control_witness :
    ({ mwBase with followLive := true }.on_user_interaction 100).followLive = false ∧
    ({ mwBase with followLive := true }.on_user_interaction 100).lastUserInteraction = some 100 ∧
    (mwExplore100.check_snapback 130).followLive = true ∧
    (mwExplore100.check_snapback 130).lastUserInteraction = none ∧
    ({ mwBase with followLive := false }.snap_to_live).followLive = true ∧
    ({ mwBase with followLive := false }.snap_to_live).lastUserInteraction = none := by
  have h1 := live_view_follow_control.1 { mwBase with followLive := true } 100
    (by simp [mwBase]) (by simp)
  have h2 := live_view_follow_control.2.1 mwExplore100 130 100
    (by simp [mwExplore100]) (by simp [mwExplore100]) (by norm_num)
    (by norm_num [snap_back_seconds])
  have h3 := live_view_follow_control.2.2 { mwBase with followLive := false }
  exact ⟨h1.1, h1.2, h2.1, h2.2, h3.1, h3.2⟩

/-- Claim C6: starting the Pulsoid transport with an empty access token emits
the token-missing connection-error status immediately and initiates zero
socket connection attempts. -/
theorem pulsoid_empty_token_immediate_error (w : PulsoidWorker) (h : w.token = "") :
    w.run_ws_entry = .tokenMissing "Pulsoid token not set (open Settings)." ∧
    w.run_ws_entry.connectionAttempts = 0 := by
  simp [PulsoidWorker.run_ws_entry, h, RunWsOutcome.connectionAttempts]

theorem pulsoid_empty_token_immediate_error_witness :
    (PulsoidWorker.init "").token = "" ∧
    (PulsoidWorker.init "").run_ws_entry =
      .tokenMissing "Pulsoid token not set (open Settings)." ∧
    (PulsoidWorker.init "").run_ws_entry.connectionAttempts = 0 :=
  ⟨rfl, (pulsoid_empty_token_immediate_error _ rfl).1,
   (pulsoid_empty_token_immediate_error _ rfl).2⟩

/-- Claim C9: a whitespace-only token is stripped to the empty string at
worker construction, so it behaves exactly like an empty token: immediate
token-missing status, zero connection attempts. -/
theorem pulsoid_whitespace_token_like_empty (t : String)
    (h : ∀ c ∈ t.data, c.isWhitespace = true) :
    (PulsoidWorker.init t).token = "" ∧
    (PulsoidWorker.init t).run_ws_entry =
      .tokenMissing "Pulsoid token not set (open Settings)." ∧
    (PulsoidWorker.init t).run_ws_entry.connectionAttempts = 0 := by
  have hdrop : t.data.dropWhile Char.isWhitespace = [] :=
    List.dropWhile_eq_nil_iff.mpr h
  have htok : (PulsoidWorker.init t).token = "" := by
    show pyStrip t = ""
    unfold pyStrip
    rw [hdrop]
    rfl
  exact ⟨htok, (pulsoid_empty_token_immediate_error _ htok).1,
    (pulsoid_empty_token_immediate_error _ htok).2⟩

theorem pulsoid_whitespace_token_like_empty_witness :
    (∀ c ∈ "   ".data, c.isWhitespace = true) ∧
    (PulsoidWorker.init "   ").token = "" ∧
    (PulsoidWorker.init "   ").run_ws_entry =
      .tokenMissing "Pulsoid token not set (open Settings)." ∧
    (PulsoidWorker.init "   ").run_ws_entry.connectionAttempts = 0 := by
  have h := pulsoid_whitespace_token_like_empty "   " (by decide)
  exact ⟨by decide, h.1, h.2.1, h.2.2⟩

/-- `MainWindow.reconnect` on the non-give-up paths: it never touches the
reconnecting flag, the last-sample timestamp or the cycle start, and always
leaves a restart scheduled. -/
lemma reconnect_preserves (now : ℚ) (s : MW) (hsch : s.reconnectScheduled = false)
    (hex : s.reconnect_time_exceeded now = false) :
    (s.reconnect now).reconnecting = s.reconnecting ∧
    (s.reconnect now).lastHrTime = s.lastHrTime ∧
    (s.reconnect now).reconnectStartedAt = s.reconnectStartedAt ∧
    (s.reconnect now).reconnectScheduled = true := by
  unfold MW.reconnect
  rw [hsch, hex]
  by_cases h : s.can_attempt_reconnect_now now = true <;>
    simp [h, MW.stop_worker]

/-- Claim C5: a watchdog tick with a live transport, not reconnecting or
scheduled, and a last-sample gap strictly greater than 30 s transitions to
Reconnecting, opens the cycle at the tick time and clears the last-sample
timestamp; a tick while already reconnecting (budget not yet exceeded) changes
nothing, so the transition happens exactly once; and an arriving sample clears
the reconnecting state. -/
theorem watchdog_stall_single_transition :
    (∀ (s : MW) (now t : ℚ),
       s.reconnecting = false → s.reconnectScheduled = false → s.workerLive = true →
       s.lastHrTime = some t → t ≠ 0 → s.reconnectStartedAt = none →
       reconnect_timeout < now - t →
       (s.check_heartbeat_timeout now).reconnecting = true ∧
       (s.check_heartbeat_timeout now).lastHrTime = none ∧
       (s.check_heartbeat_timeout now).reconnectStartedAt = some now ∧
       (s.check_heartbeat_timeout now).reconnectScheduled = true)
    ∧ (∀ (s : MW) (now : ℚ), s.reconnecting = true →
         s.reconnect_time_exceeded now = false → s.check_heartbeat_timeout now = s)
    ∧ (∀ (s : MW) (now : ℚ) (bpm : ℕ),
         (s.on_hr_update now bpm).reconnecting = false ∧
         (s.on_hr_update now bpm).lastHrTime = some now) := by
  refine ⟨?_, ?_, ?_⟩
  · intro s now t hrec hsch hworker hlast ht hstart helapsed
    obtain ⟨rec, sch, rsa, lht, lhv, lra, ce, wl, pra, fl, lui, prc⟩ := s
    dsimp only at hrec hsch hworker hlast hstart
    subst hrec hsch hworker hlast hstart
    have hstep : MW.check_heartbeat_timeout now
        ⟨false, false, none, some t, lhv, lra, ce, true, pra, fl, lui, prc⟩ =
        MW.reconnect now ⟨true, false, some now, none, lhv, lra, ce, true, pra, fl, lui, prc⟩ := by
      simp [MW.check_heartbeat_timeout, MW.enter_reconnect_cycle, pyTruthy, ht, helapsed,
        reconnect_time_exceeded_at_start]
    rw [hstep]
    have h3 := reconnect_preserves now
      ⟨true, false, some now, none, lhv, lra, ce, true, pra, fl, lui, prc⟩ rfl
      (reconnect_time_exceeded_at_start now _ rfl)
    exact ⟨h3.1, h3.2.1, h3.2.2.1, h3.2.2.2⟩
  · intro s now hrec hex
    simp [MW.check_heartbeat_timeout, hrec, hex]
  · intro s now bpm
    by_cases h : s.reconnecting <;> simp [MW.on_hr_update, h]

/-- A streaming-session state: transport live, last sample accepted at t=969,
connect button disabled, no reconnect bookkeeping. -/
def mwStreaming969 : MW :=
  { mwBase with lastHrTime := some 969, lastHrValue := some 72,
                workerLive := true, connectEnabled := false }

theorem watchdog_stall_single_transition_witness :
    (mwStreaming969.check_heartbeat_timeout 1000).reconnecting = true ∧
    (mwStreaming969.check_heartbeat_timeout 1000).lastHrTime = none ∧
    (mwStreaming969.check_heartbeat_timeout 1000).reconnectStartedAt = some 1000 ∧
    (mwStreaming969.check_heartbeat_timeout 1000).reconnectScheduled = true ∧
    ({ mwBase with reconnecting := true,
                   reconnectStartedAt := some 1000 } : MW).check_heartbeat_timeout 1002 =
      { mwBase with reconnecting := true, reconnectStartedAt := some 1000 } ∧
    (mwStreaming969.on_hr_update 970 73).reconnecting = false ∧
    (mwStreaming969.on_hr_update 970 73).lastHrTime = some 970 := by
  have h1 := watchdog_stall_single_transition.1 mwStreaming969 1000 969
    (by simp [mwStreaming969, mwBase]) (by simp [mwStreaming969, mwBase])
    (by simp [mwStreaming969, mwBase]) (by simp [mwStreaming969, mwBase])
    (by norm_num) (by simp [mwStreaming969, mwBase])
    (by norm_num [reconnect_timeout])
  have h2 := watchdog_stall_single_transition.2.1
    { mwBase with reconnecting := true, reconnectStartedAt := some 1000 } 1002
    (by simp)
    (by norm_num [MW.reconnect_time_exceeded, mwBase, reconnect_max_seconds])
  have h3 := watchdog_stall_single_transition.2.2 mwStreaming969 970 73
  exact ⟨h1.1, h1.2.1, h1.2.2.1, h1.2.2.2, h2, h3.1, h3.2⟩

/-- Claim C4: a watchdog tick while reconnecting with the cycle open for at
least `reconnect_max_seconds` (measured from cycle start, whatever attempts
were made inside it — the state is arbitrary otherwise) gives up: the
transport is stopped, all reconnect bookkeeping is cleared, and the connect
button is re-enabled (Idle). -/
theorem reconnect_budget_forces_idle (s : MW) (now t0 : ℚ)
    (hrec : s.reconnecting = true) (hstart : s.reconnectStartedAt = some t0)
    (ht0 : t0 ≠ 0) (hdur : reconnect_max_seconds ≤ now - t0) :
    (s.check_heartbeat_timeout now).reconnecting = false ∧
    (s.check_heartbeat_timeout now).reconnectScheduled = false ∧
    (s.check_heartbeat_timeout now).reconnectStartedAt = none ∧
    (s.check_heartbeat_timeout now).lastReconnectAttemptAt = none ∧
    (s.check_heartbeat_timeout now).lastHrTime = none ∧
    (s.check_heartbeat_timeout now).connectEnabled = true ∧
    (s.check_heartbeat_timeout now).workerLive = false := by
  have hex : s.reconnect_time_exceeded now = true := by
    unfold MW.reconnect_time_exceeded
    rw [hstart]
    simp [ht0, hdur]
  simp [MW.check_heartbeat_timeout, hrec, hex, MW.exit_reconnect_cycle_to_idle,
    MW.stop_worker]

/-- A mid-cycle reconnecting state: cycle opened at t=100, several attempts
recorded, a restart scheduled. -/
def mwReconnecting100 : MW :=
  { mwBase with reconnecting := true, reconnectScheduled := true,
                reconnectStartedAt := some 100, lastReconnectAttemptAt := some 260,
                pendingRestartAt := some 281, connectEnabled := false }

theorem reconnect_budget_forces_idle_witness :
    (mwReconnecting100.check_heartbeat_timeout 280).reconnecting = false ∧
    (mwReconnecting100.check_heartbeat_timeout 280).reconnectScheduled = false ∧
    (mwReconnecting100.check_heartbeat_timeout 280).reconnectStartedAt = none ∧
    (mwReconnecting100.check_heartbeat_timeout 280).lastReconnectAttemptAt = none ∧
    (mwReconnecting100.check_heartbeat_timeout 280).lastHrTime = none ∧
    (mwReconnecting100.check_heartbeat_timeout 280).connectEnabled = true ∧
    (mwReconnecting100.check_heartbeat_timeout 280).workerLive = false :=
  reconnect_budget_forces_idle mwReconnecting100 280 100
    (by simp [mwReconnecting100, mwBase]) (by simp [mwReconnecting100, mwBase])
    (by norm_num) (by norm_num [reconnect_max_seconds])

/-- Claim C2, amended: attempt initiations that pass the cooldown gate (where
`last_reconnect_attempt_at` is recorded) are at least 15 s after the
previously recorded attempt, and in that case the transport restart is
scheduled a further `reconnect_delay_seconds` (5 s) later; a request arriving
during the cooldown is deferred, not dropped: a timer is scheduled for the
moment the cooldown lapses (`singleShotDelay` of the remaining cooldown,
truncated to whole milliseconds) and the recorded attempt time is left
unchanged; a request arriving while a restart is already scheduled coalesces
with it (the state is unchanged).  Because the direct path restarts 5 s after
the gate and the deferred path does not refresh the attempt timestamp, actual
transport restarts are not separated by 15 s (see the counterexample). -/
theorem reconnect_cooldown_amended :
    (∀ (s : MW) (now t1 : ℚ),
       s.reconnectScheduled = false →
       (s.reconnecting && s.reconnect_time_exceeded now) = false →
       s.lastReconnectAttemptAt = some t1 →
       s.can_attempt_reconnect_now now = true →
       RECONNECT_COOLDOWN_SECONDS ≤ now - t1 ∧
       (s.reconnect now).lastReconnectAttemptAt = some now ∧
       (s.reconnect now).reconnectScheduled = true ∧
       (s.reconnect now).pendingRestartAt = some (now + reconnect_delay_seconds))
    ∧ (∀ (s : MW) (now : ℚ),
         s.reconnectScheduled = false →
         (s.reconnecting && s.reconnect_time_exceeded now) = false →
         s.can_attempt_reconnect_now now = false →
         (s.reconnect now).reconnectScheduled = true ∧
         (s.reconnect now).pendingRestartAt =
           some (now + singleShotDelay (s.remaining_reconnect_cooldown now)) ∧
         (s.reconnect now).lastReconnectAttemptAt = s.lastReconnectAttemptAt)
    ∧ (∀ (s : MW) (now : ℚ), s.reconnectScheduled = true → s.reconnect now = s) := by
  refine ⟨?_, ?_, ?_⟩
  · intro s now t1 hsch hex hlast hca
    have hcool : RECONNECT_COOLDOWN_SECONDS ≤ now - t1 := by
      unfold MW.can_attempt_reconnect_now at hca
      rw [hlast] at hca
      exact of_decide_eq_true hca
    refine ⟨hcool, ?_, ?_, ?_⟩ <;>
      simp [MW.reconnect, hsch, hex, hca, MW.stop_worker]
  · intro s now hsch hex hca
    refine ⟨?_, ?_, ?_⟩ <;> simp [MW.reconnect, hsch, hex, hca]
  · intro s now hsch
    simp [MW.reconnect, hsch]

/-- An idle-but-previously-attempted state: the last recorded reconnect
attempt initiation was at t=100, nothing scheduled. -/
def mwCooldown100 : MW := { mwBase with lastReconnectAttemptAt := some 100 }

theorem reconnect_cooldown_amended_witness :
    RECONNECT_COOLDOWN_SECONDS ≤ (120 : ℚ) - 100 ∧
    (mwCooldown100.reconnect 120).lastReconnectAttemptAt = some 120 ∧
    (mwCooldown100.reconnect 120).pendingRestartAt = some 125 ∧
    (mwCooldown100.reconnect 105).reconnectScheduled = true ∧
    (mwCooldown100.reconnect 105).pendingRestartAt = some 115 ∧
    (mwCooldown100.reconnect 105).lastReconnectAttemptAt = some 100 ∧
    ({ mwBase with reconnectScheduled := true } : MW).reconnect 50 =
      { mwBase with reconnectScheduled := true } := by
  have h1 := reconnect_cooldown_amended.1 mwCooldown100 120 100
    (by simp [mwCooldown100, mwBase])
    (by simp [mwCooldown100, mwBase])
    (by simp [mwCooldown100, mwBase])
    (by norm_num [MW.can_attempt_reconnect_now, mwCooldown100, mwBase,
      RECONNECT_COOLDOWN_SECONDS])
  have h2 := reconnect_cooldown_amended.2.1 mwCooldown100 105
    (by simp [mwCooldown100, mwBase])
    (by simp [mwCooldown100, mwBase])
    (by norm_num [MW.can_attempt_reconnect_now, mwCooldown100, mwBase,
      RECONNECT_COOLDOWN_SECONDS])
  have h3 := reconnect_cooldown_amended.2.2 { mwBase with reconnectScheduled := true } 50
    (by simp)
  refine ⟨h1.1, h1.2.1, ?_, h2.1, ?_, ?_, h3⟩
  · rw [h1.2.2.2]
    norm_num [reconnect_delay_seconds]
  · rw [h2.2.1]
    norm_num [singleShotDelay, MW.remaining_reconnect_cooldown, mwCooldown100, mwBase,
      RECONNECT_COOLDOWN_SECONDS]
  · rw [h2.2.2]
    simp [mwCooldown100, mwBase]

/-- Claim C2 counterexample: from a streaming state stalled since t=969, the
watchdog tick at t=1000 initiates a reconnect (attempt recorded at 1000) whose
single-shot timer fires `_restart_connection` at t=1005 — a transport restart
on the reconnect path.  A reconnect request at t=1006 (cooldown active) is
deferred and its timer fires `_restart_connection` at t=1015 — a second
transport restart on the reconnect path.  The two restarts are 10 s apart,
refuting the claim that any two reconnect attempts (transport restarts on the
reconnect path) are separated by at least 15 s. -/
theorem reconnect_restart_spacing_cex :
    (mwStreaming969.check_heartbeat_timeout 1000).pendingRestartAt = some 1005 ∧
    (mwStreaming969.check_heartbeat_timeout 1000).lastReconnectAttemptAt = some 1000 ∧
    ((mwStreaming969.check_heartbeat_timeout 1000).restart_connection 1005).workerLive
      = true ∧
    ((mwStreaming969.check_heartbeat_timeout 1000).restart_connection 1005).reconnecting
      = true ∧
    (((mwStreaming969.check_heartbeat_timeout 1000).restart_connection 1005).reconnect
      1006).pendingRestartAt = some 1015 ∧
    (((mwStreaming969.check_heartbeat_timeout 1000).restart_connection 1005).reconnect
      1006).reconnectScheduled = true ∧
    ((((mwStreaming969.check_heartbeat_timeout 1000).restart_connection 1005).reconnect
      1006).restart_connection 1015).workerLive = true ∧
    ((((mwStreaming969.check_heartbeat_timeout 1000).restart_connection 1005).reconnect
      1006).restart_connection 1015).reconnecting = true ∧
    (1015 : ℚ) - 1005 < RECONNECT_COOLDOWN_SECONDS := by
  norm_num [mwStreaming969, mwBase, MW.check_heartbeat_timeout, MW.reconnect,
    MW.enter_reconnect_cycle, MW.reconnect_time_exceeded, MW.can_attempt_reconnect_now,
    MW.stop_worker, MW.start_worker, MW.restart_connection,
    MW.remaining_reconnect_cooldown, singleShotDelay, pyTruthy,
    RECONNECT_COOLDOWN_SECONDS, reconnect_timeout, reconnect_max_seconds,
    reconnect_delay_seconds]

/-- Claim C3 counterexample: the subscription-socket receive loop polls the
stop flag only at loop entry and after inbound messages.  With the loop
entered at t=0 and no message arriving, a `stop()` at t=10 is never observed:
there is no poll in `[10, 11]` (nor any poll at all after the stop), refuting
the claim that for both transport variants the loop observes the stop signal
within one polling interval (≤ 1 s) even if no new data arrives. -/
theorem pulsoid_stop_not_observed_cex :
    pulsoidPollTimes 0 [] = [0] ∧
    ¬ observesStopWithinOneInterval (pulsoidPollTimes 0 []) 10 := by
  refine ⟨rfl, ?_⟩
  unfold observesStopWithinOneInterval pulsoidPollTimes
  norm_num

/-- Claim C3, amended: `stop()` is idempotent for both transport variants (it
only clears the cooperative `running` flag); the BLE variant's wait loop polls
the flag once per second, so it observes a stop within one polling interval
(≤ 1 s); but the subscription-socket variant polls the flag only at loop entry
and after each inbound message, so when no message arrives after the stop the
loop never observes it, and a message already being awaited when `stop()`
returns is still decoded and emitted as a sample afterwards. -/
theorem transport_stop_semantics_amended :
    (∀ w : PolarWorker, w.stop.running = false ∧ w.stop.stop = w.stop)
    ∧ (∀ w : PulsoidWorker, w.stop.running = false ∧ w.stop.stop = w.stop)
    ∧ (∀ loopStart stopTime : ℚ, loopStart ≤ stopTime →
         ∃ n : ℕ, stopTime ≤ polarPollTime loopStart n ∧
           polarPollTime loopStart n ≤ stopTime + 1)
    ∧ (∀ (loopStart stopTime : ℚ) (arrivals : List ℚ),
         loopStart < stopTime → (∀ a ∈ arrivals, a < stopTime) →
         ∀ p ∈ pulsoidPollTimes loopStart arrivals, p < stopTime)
    ∧ (∀ loopStart stopTime a : ℚ, loopStart < stopTime → stopTime ≤ a →
         pulsoidEmitted loopStart stopTime [a] = [a]) := by
  refine ⟨?_, ?_, ?_, ?_, ?_⟩
  · intro w
    exact ⟨rfl, rfl⟩
  · intro w
    exact ⟨rfl, rfl⟩
  · intro L T h
    have h0 : (0:ℚ) ≤ T - L := by linarith
    have hc0 : (0:ℤ) ≤ ⌈T - L⌉ := Int.ceil_nonneg h0
    have hcast : ((⌈T - L⌉.toNat : ℕ) : ℚ) = ((⌈T - L⌉ : ℤ) : ℚ) := by
      exact_mod_cast congrArg (fun z : ℤ => (z : ℚ)) (Int.toNat_of_nonneg hc0)
    refine ⟨⌈T - L⌉.toNat, ?_, ?_⟩ <;> unfold polarPollTime <;> rw [hcast]
    · have hle := Int.le_ceil (T - L)
      linarith
    · have hlt := Int.ceil_lt_add_one (T - L)
      linarith
  · intro L T arrivals hL harr p hp
    rcases List.mem_cons.mp hp with h | h
    · exact h ▸ hL
    · exact harr p h
  · intro L T a hL _
    simp [pulsoidEmitted, not_le.mpr hL]

theorem transport_stop_semantics_amended_witness :
    (PolarWorker.init.stop).running = false ∧
    (PulsoidWorker.init "tok").stop.running = false ∧
    (∃ n : ℕ, (10 : ℚ) ≤ polarPollTime 0 n ∧ polarPollTime 0 n ≤ 11) ∧
    ((0 : ℚ) ∈ pulsoidPollTimes 0 [5] → (0 : ℚ) < 10) ∧
    pulsoidEmitted 0 10 [12] = [12] := by
  refine ⟨(transport_stop_semantics_amended.1 PolarWorker.init).1,
    (transport_stop_semantics_amended.2.1 (PulsoidWorker.init "tok")).1, ?_, ?_, ?_⟩
  · have h := transport_stop_semantics_amended.2.2.1 0 10 (by norm_num)
    norm_num at h
    exact h
  · intro h
    exact transport_stop_semantics_amended.2.2.2.1 0 10 [5] (by norm_num)
      (by intro a ha; simp at ha; norm_num [ha]) 0 h
  · exact transport_stop_semantics_amended.2.2.2.2 0 10 12 (by norm_num) (by norm_num)
